import Mathlib
namespace PTPal


/-- Error taxonomy of the engine: `missingMetrics` models the `KeyError`
raised by a validator when required metric keys are absent (carrying the
pose label and the list of missing keys), and `unknownPose` models the
`KeyError` raised by `evaluate_pose` for a key outside `POSE_DISPATCH`
(carrying the offending key and the list of valid keys). -/
inductive PoseError where
  | missingMetrics (pose : String) (keys : List String)
  | unknownPose (key : String) (valid : List String)
deriving DecidableEq

/-- The `Thresholds` dataclass of validate_pose.py with its default field
values (`0.7` is written `7 / 10`). -/
structure Thresholds (α : Type) [LinearOrderedField α] where
  squat_min_depth_deg : α := 140
  squat_max_depth_deg : α := 100
  squat_max_forward_lean_deg : α := 35
  squat_max_knee_valgus_deg : α := 15
  squat_max_heel_lift_cm : α := 5
  heel_min_raise_cm : α := 2
  heel_symmetry_max_diff_pct : α := 15
  heel_max_ankle_roll_deg : α := 8
  heel_max_trunk_lean_deg : α := 15
  sls_max_sway_deg : α := 8
  sls_max_pelvic_drop_deg : α := 7
  tandem_max_foot_line_dev_cm : α := 10
  tandem_max_trunk_lean_deg : α := 10
  tandem_max_head_feet_deviation_deg : α := 10
  fr_min_reach_ratio : α := 7 / 10
  fr_min_trunk_flexion_deg : α := 10
  fr_max_trunk_flexion_deg : α := 30
  tree_max_pelvic_shift_deg : α := 8
  tree_max_trunk_sway_deg : α := 8
  tree_max_arm_misalignment_deg : α := 10
  tree_min_leg_lift_cm : α := 10
deriving DecidableEq

/-- A metrics dict (`Dict[str, float]` plus the non-float entries the
extractor stores in the same dict, split out by the type they are read
back at). -/
structure MetricSet (α : Type) where
  vals : String → Option α
  flags : String → Option Bool := fun _ => none
  strs : String → Option String := fun _ => none

/-- The empty metrics dict (what `compute_pose_metrics` returns for a
short frame). -/
def MetricSet.empty (α : Type) : MetricSet α :=
  { vals := fun _ => none }

/-- Dict assignment `metrics[k] = v` for a float value. -/
def MetricSet.setVal {α : Type} (m : MetricSet α) (k : String) (v : α) : MetricSet α :=
  { m with vals := fun q => if q = k then some v else m.vals q }

/-- Dict assignment `metrics[k] = b` for a boolean value. -/
def MetricSet.setFlag {α : Type} (m : MetricSet α) (k : String) (b : Bool) : MetricSet α :=
  { m with flags := fun q => if q = k then some b else m.flags q }

/-- Dict assignment `metrics[k] = s` for a string value. -/
def MetricSet.setStr {α : Type} (m : MetricSet α) (k : String) (s : String) : MetricSet α :=
  { m with strs := fun q => if q = k then some s else m.strs q }

/-- The `PoseResult` dataclass.  The `thresholds` field keeps the
`Thresholds` record itself (the source stores `asdict(th)`, the same
data as a name-keyed dict). -/
structure PoseResult (α : Type) [LinearOrderedField α] where
  pose : String
  score : ℤ
  pass_fail : Bool
  reasons : List String
  metrics : List (String × α)
  thresholds : Thresholds α
deriving DecidableEq

/-- `_score_from_flags` of validate_pose.py: convert pass/fail checks to
a 1-5 star rating.  The Python float division of the two ints is modelled
exactly over `ℚ`. -/
def _score_from_flags (total_checks : ℤ) (fails : ℤ) : ℤ :=
  let passed : ℤ := max 0 (total_checks - fails)
  let pass_percentage : ℚ := (passed : ℚ) / ((max 1 total_checks : ℤ) : ℚ)
  if pass_percentage ≥ 1 then 5
  else if pass_percentage ≥ 0.8 then 4
  else if pass_percentage ≥ 0.6 then 3
  else if pass_percentage ≥ 0.4 then 2
  else 1

/-- `_bool_fail` of validate_pose.py: a failing condition appends its cue
to the reasons and contributes 1 to the fail count. -/
def _bool_fail (condition : Bool) (msg : String) (reasons : List String) : ℤ × List String :=
  if condition then (1, reasons ++ [msg]) else (0, reasons)

/-- Run an ordered sequence of `_bool_fail` checks, accumulating the fail
count and the reasons exactly as the imperative `fails += _bool_fail(...)`
statements of the source do. -/
def run_checks (checkList : List (Bool × String)) : ℤ × List String :=
  checkList.foldl
    (fun acc c =>
      let r := _bool_fail c.1 c.2 acc.2
      (acc.1 + r.1, r.2))
    (0, [])

section Validators

variable {α : Type} [LinearOrderedField α]

/-- Common return skeleton shared verbatim by the eight `validate_*`
functions of validate_pose.py: check required metrics first (fail fast
with a `KeyError` naming the missing keys), then run the checks, score,
and assemble the `PoseResult`.  `label` is the pose name used in the
missing-metrics error message; `pose` the name stored in the result
(they differ only for `validate_tree_pose`, whose result name depends on
the lifted leg). -/
def build_result (label : String) (pose : String) (req : List String)
    (checks : ℤ) (checkList : List (Bool × String)) (defaultMsg : String)
    (m : MetricSet α) (th : Thresholds α) : Except PoseError (PoseResult α) :=
  let missing := req.filter (fun k => (m.vals k).isNone)
  if missing = [] then
    let fr := run_checks checkList
    Except.ok
      { pose := pose
        score := _score_from_flags checks fr.1
        pass_fail := decide (fr.1 = 0)
        reasons := if fr.2 = [] then [defaultMsg] else fr.2
        metrics := req.filterMap (fun k => (m.vals k).map (fun v => (k, v)))
        thresholds := th }
  else Except.error (PoseError.missingMetrics label missing)

/-- Required metrics of `validate_partial_squat`. -/
def partial_squat_req : List String :=
  ["knee_flexion_deg", "hip_knee_ankle_alignment_deg", "heel_height_cm",
   "trunk_forward_lean_deg"]

/-- Total check count of `validate_partial_squat`: starts at 5, reduced
to 4 when facing sideways (the knee-alignment check is skipped). -/
def partial_squat_checks (m : MetricSet α) : ℤ :=
  if (m.flags "is_facing_sideways").getD false then 4 else 5

/-- The ordered checks of `validate_partial_squat`; the knee-alignment
check is only present when not facing sideways. -/
def partial_squat_checkList (m : MetricSet α) (th : Thresholds α) : List (Bool × String) :=
  let g := fun k => (m.vals k).getD 0
  [(decide (g "knee_flexion_deg" > th.squat_min_depth_deg), "Go deeper"),
   (decide (g "knee_flexion_deg" < th.squat_max_depth_deg), "Don\x27t go too deep")]
  ++ (if (m.flags "is_facing_sideways").getD false then []
      else [(decide (|g "hip_knee_ankle_alignment_deg"| > th.squat_max_knee_valgus_deg),
             "Knees in line")])
  ++ [(decide (g "heel_height_cm" > th.squat_max_heel_lift_cm), "Keep heels down"),
      (decide (g "trunk_forward_lean_deg" > th.squat_max_forward_lean_deg), "Upright chest")]

/-- `validate_partial_squat` of validate_pose.py. -/
def validate_partial_squat (m : MetricSet α) (th : Thresholds α) :
    Except PoseError (PoseResult α) :=
  build_result "Partial Squat" "Partial Squat" partial_squat_req
    (partial_squat_checks m) (partial_squat_checkList m th)
    "Nice control and alignment." m th

/-- Required metrics of `validate_heel_raises`. -/
def heel_raises_req : List String :=
  ["heel_height_cm", "symmetry_diff_pct", "ankle_roll_deg", "trunk_forward_lean_deg"]

/-- The ordered checks of `validate_heel_raises` (the ankle-roll check
reads the metric with `metrics.get(..., 0.0)`). -/
def heel_raises_checkList (m : MetricSet α) (th : Thresholds α) : List (Bool × String) :=
  let g := fun k => (m.vals k).getD 0
  [(decide (g "heel_height_cm" < th.heel_min_raise_cm), "Raise higher"),
   (decide (g "symmetry_diff_pct" > th.heel_symmetry_max_diff_pct), "Match sides"),
   (decide (|g "ankle_roll_deg"| > th.heel_max_ankle_roll_deg), "Neutral ankles"),
   (decide (g "trunk_forward_lean_deg" > th.heel_max_trunk_lean_deg), "Keep trunk upright")]

/-- `validate_heel_raises` of validate_pose.py. -/
def validate_heel_raises (m : MetricSet α) (th : Thresholds α) :
    Except PoseError (PoseResult α) :=
  build_result "Heel Raises" "Heel Raises" heel_raises_req 4
    (heel_raises_checkList m th) "Good height and symmetry." m th

/-- Required metrics of `validate_single_leg_stance`. -/
def single_leg_stance_req : List String :=
  ["sway_peak_deg", "pelvic_drop_deg"]

/-- The ordered checks of `validate_single_leg_stance`. -/
def single_leg_stance_checkList (m : MetricSet α) (th : Thresholds α) : List (Bool × String) :=
  let g := fun k => (m.vals k).getD 0
  [(decide (g "sway_peak_deg" > th.sls_max_sway_deg), "Reduce sway"),
   (decide (g "pelvic_drop_deg" > th.sls_max_pelvic_drop_deg), "Level pelvis")]

/-- `validate_single_leg_stance` of validate_pose.py. -/
def validate_single_leg_stance (m : MetricSet α) (th : Thresholds α) :
    Except PoseError (PoseResult α) :=
  build_result "SLS" "Single-Leg Stance" single_leg_stance_req 2
    (single_leg_stance_checkList m th) "Stable and level." m th

/-- Required metrics of `validate_tandem_stance`. -/
def tandem_stance_req : List String :=
  ["foot_line_deviation_cm", "trunk_forward_lean_deg", "head_feet_alignment_deg"]

/-- The ordered checks of `validate_tandem_stance`. -/
def tandem_stance_checkList (m : MetricSet α) (th : Thresholds α) : List (Bool × String) :=
  let g := fun k => (m.vals k).getD 0
  [(decide (g "foot_line_deviation_cm" > th.tandem_max_foot_line_dev_cm), "Bring feet closer"),
   (decide (|g "trunk_forward_lean_deg"| > th.tandem_max_trunk_lean_deg), "Stand tall"),
   (decide (g "head_feet_alignment_deg" > th.tandem_max_head_feet_deviation_deg),
    "Align head over feet")]

/-- `validate_tandem_stance` of validate_pose.py. -/
def validate_tandem_stance (m : MetricSet α) (th : Thresholds α) :
    Except PoseError (PoseResult α) :=
  build_result "Tandem Stance" "Tandem Stance" tandem_stance_req 3
    (tandem_stance_checkList m th) "Aligned and steady." m th

/-- Required metrics of `validate_functional_reach`. -/
def functional_reach_req : List String :=
  ["reach_distance_ratio", "trunk_forward_lean_deg", "stepped_during_task"]

/-- The ordered checks of `validate_functional_reach` (the stepping cue
has no interpolated values, so it is kept whole). -/
def functional_reach_checkList (m : MetricSet α) (th : Thresholds α) : List (Bool × String) :=
  let g := fun k => (m.vals k).getD 0
  [(decide (g "reach_distance_ratio" < Thresholds.fr_min_reach_ratio th), "Reach further"),
   (decide (g "stepped_during_task" ≥ 0.5), "Keep feet planted: stepping detected."),
   (decide (g "trunk_forward_lean_deg" < th.fr_min_trunk_flexion_deg), "Lean forward slightly"),
   (decide (g "trunk_forward_lean_deg" > th.fr_max_trunk_flexion_deg),
    "Reach with arms, not trunk")]

/-- `validate_functional_reach` of validate_pose.py. -/
def validate_functional_reach (m : MetricSet α) (th : Thresholds α) :
    Except PoseError (PoseResult α) :=
  build_result "Functional Reach" "Functional Reach" functional_reach_req 4
    (functional_reach_checkList m th) "Strong, controlled reach." m th

/-- Required metrics shared by `validate_tree_pose`,
`validate_tree_pose_right` and `validate_tree_pose_left` (each source
function repeats this same list). -/
def tree_pose_req : List String :=
  ["pelvic_drop_deg", "sway_peak_deg", "arm_overhead_alignment_deg", "leg_lift_height_cm"]

/-- The ordered checks of `validate_tree_pose`; the last cue interpolates
the detected lifted leg (default "unknown"). -/
def tree_pose_checkList (m : MetricSet α) (th : Thresholds α) : List (Bool × String) :=
  let g := fun k => (m.vals k).getD 0
  let lifted_leg := (m.strs "lifted_leg").getD "unknown"
  [(decide (|g "pelvic_drop_deg"| > th.tree_max_pelvic_shift_deg), "Level hips"),
   (decide (g "sway_peak_deg" > th.tree_max_trunk_sway_deg), "Align shoulders over hips"),
   (decide (|g "arm_overhead_alignment_deg"| > th.tree_max_arm_misalignment_deg),
    "Align arms overhead"),
   (decide (g "leg_lift_height_cm" < th.tree_min_leg_lift_cm),
    "Lift " ++ lifted_leg ++ " leg higher")]

/-- `validate_tree_pose` of validate_pose.py (result pose name depends on
the `lifted_leg` facet). -/
def validate_tree_pose (m : MetricSet α) (th : Thresholds α) :
    Except PoseError (PoseResult α) :=
  let lifted_leg := (m.strs "lifted_leg").getD "unknown"
  let pose_name :=
    if lifted_leg = "right" then "Tree Pose (Right Leg Lifted)"
    else if lifted_leg = "left" then "Tree Pose (Left Leg Lifted)"
    else "Tree Pose"
  build_result "Tree Pose" pose_name tree_pose_req 4
    (tree_pose_checkList m th) "Centered and aligned." m th

/-- The ordered checks of `validate_tree_pose_right`. -/
def tree_pose_right_checkList (m : MetricSet α) (th : Thresholds α) : List (Bool × String) :=
  let g := fun k => (m.vals k).getD 0
  [(decide (|g "pelvic_drop_deg"| > th.tree_max_pelvic_shift_deg), "Level hips"),
   (decide (g "sway_peak_deg" > th.tree_max_trunk_sway_deg), "Align shoulders over hips"),
   (decide (|g "arm_overhead_alignment_deg"| > th.tree_max_arm_misalignment_deg),
    "Align arms overhead"),
   (decide (g "leg_lift_height_cm" < th.tree_min_leg_lift_cm), "Lift right leg higher")]

/-- `validate_tree_pose_right` of validate_pose.py. -/
def validate_tree_pose_right (m : MetricSet α) (th : Thresholds α) :
    Except PoseError (PoseResult α) :=
  build_result "Tree Pose (Right)" "Tree Pose (Right Leg)" tree_pose_req 4
    (tree_pose_right_checkList m th) "Centered and aligned - right leg lifted." m th

/-- The ordered checks of `validate_tree_pose_left`. -/
def tree_pose_left_checkList (m : MetricSet α) (th : Thresholds α) : List (Bool × String) :=
  let g := fun k => (m.vals k).getD 0
  [(decide (|g "pelvic_drop_deg"| > th.tree_max_pelvic_shift_deg), "Level hips"),
   (decide (g "sway_peak_deg" > th.tree_max_trunk_sway_deg), "Align shoulders over hips"),
   (decide (|g "arm_overhead_alignment_deg"| > th.tree_max_arm_misalignment_deg),
    "Align arms overhead"),
   (decide (g "leg_lift_height_cm" < th.tree_min_leg_lift_cm), "Lift left leg higher")]

/-- `validate_tree_pose_left` of validate_pose.py. -/
def validate_tree_pose_left (m : MetricSet α) (th : Thresholds α) :
    Except PoseError (PoseResult α) :=
  build_result "Tree Pose (Left)" "Tree Pose (Left Leg)" tree_pose_req 4
    (tree_pose_left_checkList m th) "Centered and aligned - left leg lifted." m th

end Validators

/-- The `POSE_DISPATCH` table of validate_pose.py, in source order. -/
def POSE_DISPATCH (β : Type) [LinearOrderedField β] :
    List (String × (MetricSet β → Thresholds β → Except PoseError (PoseResult β))) :=
  [("partial_squat", validate_partial_squat),
   ("heel_raises", validate_heel_raises),
   ("single_leg_stance", validate_single_leg_stance),
   ("tandem_stance", validate_tandem_stance),
   ("functional_reach", validate_functional_reach),
   ("tree_pose", validate_tree_pose),
   ("tree_pose_left", validate_tree_pose_left),
   ("tree_pose_right", validate_tree_pose_right)]

/-- `evaluate_pose` of validate_pose.py: dispatch by pose key; an unknown
key raises a `KeyError` listing the valid keys, and an absent thresholds
argument defaults to `Thresholds()`. -/
def evaluate_pose {α : Type} [LinearOrderedField α] (pose_key : String)
    (metrics : MetricSet α) (th : Option (Thresholds α)) :
    Except PoseError (PoseResult α) :=
  match List.lookup pose_key (POSE_DISPATCH α) with
  | some f => f metrics (th.getD {})
  | none =>
      Except.error (PoseError.unknownPose pose_key
        (List.map Prod.fst (POSE_DISPATCH α)))

/-! The geometric layer of backend/app.py, embedded over `ℝ`. -/

/-- A 2D landmark point (the source reads only the `x` and `y` entries
of each landmark dict in the code embedded here). -/
structure Landmark where
  x : ℝ
  y : ℝ

/-- `calculate_angle` of app.py: the angle at vertex `p1` between `p2`
and `p3` in degrees, with the cosine clamped to [-1, 1] and the angle
defined as 0 when either vector has zero magnitude.  (The `try/except`
wrapper of the source is vacuous here: the embedded computation is
total.) -/
noncomputable def calculate_angle (p1 p2 p3 : Landmark) : ℝ :=
  let v1 : ℝ × ℝ := (p2.x - p1.x, p2.y - p1.y)
  let v2 : ℝ × ℝ := (p3.x - p1.x, p3.y - p1.y)
  let dot_product := v1.1 * v2.1 + v1.2 * v2.2
  let magnitude1 := Real.sqrt (v1.1 ^ 2 + v1.2 ^ 2)
  let magnitude2 := Real.sqrt (v2.1 ^ 2 + v2.2 ^ 2)
  if magnitude1 = 0 ∨ magnitude2 = 0 then 0
  else
    let cos_angle := dot_product / (magnitude1 * magnitude2)
    let cos_angle := max (-1) (min 1 cos_angle)
    let angle_rad := Real.arccos cos_angle
    angle_rad * 180 / Real.pi

/-- The Python `math.atan2 y x`, via the complex argument of `x + y*i`. -/
noncomputable def atan2 (y x : ℝ) : ℝ := Complex.arg { re := x, im := y }

/-- The Python `math.degrees`. -/
noncomputable def degrees (angle_rad : ℝ) : ℝ := angle_rad * 180 / Real.pi

/-- Landmark access `landmarks[i]` (total here; every call site is
guarded by the length check of `compute_pose_metrics`). -/
def lmGet (landmarks : List Landmark) (i : Nat) : Landmark :=
  landmarks.getD i { x := 0, y := 0 }

/-- The "Common calculations" section of `compute_pose_metrics` in
app.py: knee flexion (via `calculate_angle` at each knee), the
facing-sideways classification with the frontal knee alignment, heel
height, trunk lean, bilateral symmetry, pelvic drop, and the
`ankle_roll_deg = 0` placeholder.  Branches of the source that assign
the same key in every path are embedded as a single assignment of a
conditional value. -/
noncomputable def compute_pose_metrics_common (landmarks : List Landmark) : MetricSet ℝ :=
  let lm := lmGet landmarks
  let knee_left_angle := calculate_angle (lm 25) (lm 23) (lm 27)
  let knee_right_angle := calculate_angle (lm 26) (lm 24) (lm 28)
  let m := (MetricSet.empty ℝ).setVal "knee_flexion_deg"
    ((knee_left_angle + knee_right_angle) / 2)
  let m := m.setVal "knee_flexion_left_deg" knee_left_angle
  let m := m.setVal "knee_flexion_right_deg" knee_right_angle
  let shoulder_x_diff := |(lm 11).x - (lm 12).x|
  let shoulder_y_diff := |(lm 11).y - (lm 12).y|
  let is_facing_sideways := shoulder_x_diff < shoulder_y_diff * 0.5
  let left_hip_ankle_mid_x := ((lm 23).x + (lm 27).x) / 2
  let right_hip_ankle_mid_x := ((lm 24).x + (lm 28).x) / 2
  let left_knee_deviation := |(lm 25).x - left_hip_ankle_mid_x| * 100
  let right_knee_deviation := |(lm 26).x - right_hip_ankle_mid_x| * 100
  let m := m.setVal "hip_knee_ankle_alignment_deg"
    (if is_facing_sideways then 0 else (left_knee_deviation + right_knee_deviation) / 2)
  let m := m.setFlag "is_facing_sideways" (decide is_facing_sideways)
  let left_heel_height := |(lm 29).y - (lm 31).y| * 170
  let right_heel_height := |(lm 30).y - (lm 32).y| * 170
  let m := m.setVal "heel_height_cm" ((left_heel_height + right_heel_height) / 2)
  let mid_shoulder_x := ((lm 11).x + (lm 12).x) / 2
  let mid_shoulder_y := ((lm 11).y + (lm 12).y) / 2
  let mid_hip_x := ((lm 23).x + (lm 24).x) / 2
  let mid_hip_y := ((lm 23).y + (lm 24).y) / 2
  let m := m.setVal "trunk_forward_lean_deg"
    (degrees (atan2 |mid_shoulder_x - mid_hip_x| |mid_shoulder_y - mid_hip_y|))
  let kl := (m.vals "knee_flexion_left_deg").getD 0
  let kr := (m.vals "knee_flexion_right_deg").getD 0
  let m := m.setVal "symmetry_diff_pct"
    (if kl > 0 ∨ kr > 0 then
      (if max kl kr > 0 then |kl - kr| / max kl kr * 100 else 0)
    else if left_heel_height > 0 ∨ right_heel_height > 0 then
      (if max left_heel_height right_heel_height > 0 then
        |left_heel_height - right_heel_height| / max left_heel_height right_heel_height * 100
      else 0)
    else 0)
  let m := m.setVal "pelvic_drop_deg" (|(lm 23).y - (lm 24).y| * 100)
  m.setVal "ankle_roll_deg" 0

/-- The sway/arm/leg-lift branch of `compute_pose_metrics` (taken for
single-leg stance and the tree poses). -/
noncomputable def sway_branch_metrics (landmarks : List Landmark) (m0 : MetricSet ℝ) :
    MetricSet ℝ :=
  let lm := lmGet landmarks
  let mid_shoulder_x_sway := ((lm 11).x + (lm 12).x) / 2
  let mid_hip_x_sway := ((lm 23).x + (lm 24).x) / 2
  let mid_shoulder_y_sway := ((lm 11).y + (lm 12).y) / 2
  let mid_hip_y_sway := ((lm 23).y + (lm 24).y) / 2
  let vertical_dist := |mid_shoulder_y_sway - mid_hip_y_sway|
  let horizontal_dist := |mid_shoulder_x_sway - mid_hip_x_sway|
  let m := m0.setVal "sway_peak_deg"
    (if vertical_dist > 0 then degrees (atan2 horizontal_dist vertical_dist) else 0)
  let m := m.setVal "arm_overhead_alignment_deg"
    (if (lm 15).y < (lm 11).y ∧ (lm 16).y < (lm 12).y
     then |(lm 15).y - (lm 16).y| * 100 else 20)
  let left_ankle_y := (lm 27).y
  let right_ankle_y := (lm 28).y
  let m := m.setVal "leg_lift_height_cm" (|left_ankle_y - right_ankle_y| * 170)
  if left_ankle_y < right_ankle_y then
    (m.setStr "lifted_leg" "left").setStr "standing_leg" "right"
  else
    (m.setStr "lifted_leg" "right").setStr "standing_leg" "left"

/-- The tandem-stance branch of `compute_pose_metrics`.  The
rightmost-point selection embeds the Python call
`max(foot_points, key=foot_points.get)` (first key with maximal value,
in dict insertion order) as a sequential fold. -/
noncomputable def tandem_branch_metrics (landmarks : List Landmark) (m0 : MetricSet ℝ) :
    MetricSet ℝ :=
  let lm := lmGet landmarks
  let left_heel_x := (lm 29).x
  let left_toe_x := (lm 31).x
  let right_heel_x := (lm 30).x
  let right_toe_x := (lm 32).x
  let m := m0.setVal "left_heel_x" left_heel_x
  let m := m.setVal "left_toe_x" left_toe_x
  let m := m.setVal "right_heel_x" right_heel_x
  let m := m.setVal "right_toe_x" right_toe_x
  let best1 : String × ℝ := ("left_toe", left_toe_x)
  let best2 := if left_heel_x > best1.2 then (("left_heel", left_heel_x) : String × ℝ) else best1
  let best3 := if right_toe_x > best2.2 then (("right_toe", right_toe_x) : String × ℝ) else best2
  let rightmost_point := if right_heel_x > best3.2 then "right_heel" else best3.1
  let m := m.setStr "rightmost_point" rightmost_point
  let pts : ℝ × ℝ × ℝ × ℝ × String :=
    if rightmost_point = "left_toe" then
      (left_heel_x, (lm 29).y, right_toe_x, (lm 32).y, "left_heel to right_toe")
    else if rightmost_point = "right_toe" then
      (right_heel_x, (lm 30).y, left_toe_x, (lm 31).y, "right_heel to left_toe")
    else if rightmost_point = "left_heel" then
      (left_toe_x, (lm 31).y, right_heel_x, (lm 30).y, "left_toe to right_heel")
    else
      (right_toe_x, (lm 32).y, left_heel_x, (lm 29).y, "right_toe to left_heel")
  let m := m.setStr "measured_points" pts.2.2.2.2
  let horizontal_dist := |pts.1 - pts.2.2.1|
  let vertical_dist := |pts.2.1 - pts.2.2.2.1|
  let foot_distance := Real.sqrt (horizontal_dist ^ 2 + vertical_dist ^ 2)
  let m := m.setVal "foot_line_deviation_cm" (foot_distance * 170)
  let mid_foot_x := ((lm 27).x + (lm 28).x) / 2
  let mid_foot_y := ((lm 27).y + (lm 28).y) / 2
  let nose_x := (lm 0).x
  let nose_y := (lm 0).y
  let horizontal_deviation := |nose_x - mid_foot_x|
  let vertical_dist2 := |nose_y - mid_foot_y|
  m.setVal "head_feet_alignment_deg"
    (if vertical_dist2 > 0 then degrees (atan2 horizontal_deviation vertical_dist2) else 0)

/-- The functional-reach branch of `compute_pose_metrics`, ending with
the `stepped_during_task = 0.0` stub. -/
noncomputable def functional_reach_branch_metrics (landmarks : List Landmark)
    (m0 : MetricSet ℝ) : MetricSet ℝ :=
  let lm := lmGet landmarks
  let arm_length := Real.sqrt (((lm 11).x - (lm 15).x) ^ 2 + ((lm 11).y - (lm 15).y) ^ 2)
  let reach_forward := |(lm 15).x - (lm 11).x|
  let m := m0.setVal "reach_distance_ratio"
    (if arm_length > 0 then reach_forward / arm_length else 0)
  m.setVal "stepped_during_task" 0

/-- The "Pose-specific calculations" section of `compute_pose_metrics`
in app.py: the `elif` chain over the pose type (the `partial_squat` and
`heel_raises` branches are `pass`, and an unmatched pose type leaves the
dict unchanged). -/
noncomputable def compute_pose_metrics_specific (pose_type : String)
    (landmarks : List Landmark) (m0 : MetricSet ℝ) : MetricSet ℝ :=
  if pose_type = "partial_squat" then m0
  else if pose_type = "heel_raises" then m0
  else if pose_type ∈ ["single_leg_stance", "tree_pose", "tree_pose_left", "tree_pose_right"]
  then sway_branch_metrics landmarks m0
  else if pose_type = "tandem_stance" then tandem_branch_metrics landmarks m0
  else if pose_type = "functional_reach" then functional_reach_branch_metrics landmarks m0
  else m0

/-- `compute_pose_metrics` of app.py: empty metrics for a frame shorter
than 33 landmarks, otherwise the common section followed by the
pose-specific section on the same dict. -/
noncomputable def compute_pose_metrics (pose_type : String) (landmarks : List Landmark) :
    MetricSet ℝ :=
  if landmarks.length < 33 then MetricSet.empty ℝ
  else compute_pose_metrics_specific pose_type landmarks
    (compute_pose_metrics_common landmarks)

/-! Definitions used only to state the claims and their witnesses:
the per-key views of the dispatch table, the bracket mapping
transcribed from the spec, and concrete inputs and results for
witness evaluations. -/

/-- Modelled from the spec: the bracket mapping of the pass ratio —
score 5 if the ratio is at least 1.00, 4 if at least 0.80, 3 if at least
0.60, 2 if at least 0.40, and 1 otherwise (spec section 4.3, transcribed
for the refinement comparison of claim C1). -/
def ratio_bracket_spec (r : ℚ) : ℤ :=
  if r ≥ 1 then 5
  else if r ≥ 0.8 then 4
  else if r ≥ 0.6 then 3
  else if r ≥ 0.4 then 2
  else 1

/-- The check list run by the evaluator selected for a given pose key
(used to state claim C2; empty for an unknown key). -/
def pose_check_list (key : String) (m : MetricSet ℚ) (th : Thresholds ℚ) :
    List (Bool × String) :=
  if key = "partial_squat" then partial_squat_checkList m th
  else if key = "heel_raises" then heel_raises_checkList m th
  else if key = "single_leg_stance" then single_leg_stance_checkList m th
  else if key = "tandem_stance" then tandem_stance_checkList m th
  else if key = "functional_reach" then functional_reach_checkList m th
  else if key = "tree_pose" then tree_pose_checkList m th
  else if key = "tree_pose_left" then tree_pose_left_checkList m th
  else if key = "tree_pose_right" then tree_pose_right_checkList m th
  else []

/-- The required-metric list of the evaluator selected for a given pose
key (used to state claim C3; empty for an unknown key). -/
def pose_required_keys (key : String) : List String :=
  if key = "partial_squat" then partial_squat_req
  else if key = "heel_raises" then heel_raises_req
  else if key = "single_leg_stance" then single_leg_stance_req
  else if key = "tandem_stance" then tandem_stance_req
  else if key = "functional_reach" then functional_reach_req
  else if key = "tree_pose" then tree_pose_req
  else if key = "tree_pose_left" then tree_pose_req
  else if key = "tree_pose_right" then tree_pose_req
  else []

/-- The pose label used in the missing-metrics error message of the
evaluator selected for a given pose key (used to state claim C3). -/
def pose_error_label (key : String) : String :=
  if key = "partial_squat" then "Partial Squat"
  else if key = "heel_raises" then "Heel Raises"
  else if key = "single_leg_stance" then "SLS"
  else if key = "tandem_stance" then "Tandem Stance"
  else if key = "functional_reach" then "Functional Reach"
  else if key = "tree_pose" then "Tree Pose"
  else if key = "tree_pose_left" then "Tree Pose (Left)"
  else if key = "tree_pose_right" then "Tree Pose (Right)"
  else ""

/-- The encouraging default reason of the evaluator selected for a given
pose key (used to state claim C6). -/
def pose_default_message (key : String) : String :=
  if key = "partial_squat" then "Nice control and alignment."
  else if key = "heel_raises" then "Good height and symmetry."
  else if key = "single_leg_stance" then "Stable and level."
  else if key = "tandem_stance" then "Aligned and steady."
  else if key = "functional_reach" then "Strong, controlled reach."
  else if key = "tree_pose" then "Centered and aligned."
  else if key = "tree_pose_left" then "Centered and aligned - left leg lifted."
  else if key = "tree_pose_right" then "Centered and aligned - right leg lifted."
  else ""

/-- A concrete all-passing single-leg-stance metrics dict, for the
witness of claim C2. -/
def pass_witness_metrics : MetricSet ℚ :=
  { vals := fun k =>
      if k = "sway_peak_deg" then some 1
      else if k = "pelvic_drop_deg" then some 1
      else none }

/-- The result `validate_single_leg_stance` produces on
`pass_witness_metrics`. -/
def pass_witness_result : PoseResult ℚ :=
  { pose := "Single-Leg Stance", score := 5, pass_fail := true,
    reasons := ["Stable and level."],
    metrics := [("sway_peak_deg", 1), ("pelvic_drop_deg", 1)],
    thresholds := {} }

/-- A concrete all-passing tandem-stance metrics dict, for the witness of
claim C6. -/
def reasons_witness_metrics : MetricSet ℚ :=
  { vals := fun k =>
      if k = "foot_line_deviation_cm" then some 1
      else if k = "trunk_forward_lean_deg" then some 1
      else if k = "head_feet_alignment_deg" then some 1
      else none }

/-- The result `validate_tandem_stance` produces on
`reasons_witness_metrics`. -/
def reasons_witness_result : PoseResult ℚ :=
  { pose := "Tandem Stance", score := 5, pass_fail := true,
    reasons := ["Aligned and steady."],
    metrics := [("foot_line_deviation_cm", 1), ("trunk_forward_lean_deg", 1),
                ("head_feet_alignment_deg", 1)],
    thresholds := {} }

/-- A concrete sideways partial-squat metrics dict, for the witness of
claim C4. -/
def sideways_witness_metrics : MetricSet ℚ :=
  { vals := fun k =>
      if k = "knee_flexion_deg" then some 120
      else if k = "hip_knee_ankle_alignment_deg" then some 0
      else if k = "heel_height_cm" then some 1
      else if k = "trunk_forward_lean_deg" then some 1
      else none,
    flags := fun k => if k = "is_facing_sideways" then some true else none }

/-- The heel-raises metrics dict of the one-failing-check
scenario, for claim C5. -/
def heel_scenario_metrics : MetricSet ℚ :=
  { vals := fun k =>
      if k = "heel_height_cm" then some 0.2
      else if k = "symmetry_diff_pct" then some 9
      else if k = "ankle_roll_deg" then some 4
      else if k = "trunk_forward_lean_deg" then some 8
      else none }

/-- A concrete in-window partial-squat metrics dict, for the witness of
claim C9. -/
def window_witness_metrics : MetricSet ℚ :=
  { vals := fun k =>
      if k = "knee_flexion_deg" then some 120
      else if k = "hip_knee_ankle_alignment_deg" then some 0
      else if k = "heel_height_cm" then some 0
      else if k = "trunk_forward_lean_deg" then some 0
      else none }

/-- The result `validate_partial_squat` produces on
`window_witness_metrics`. -/
def window_witness_result : PoseResult ℚ :=
  { pose := "Partial Squat", score := 5, pass_fail := true,
    reasons := ["Nice control and alignment."],
    metrics := [("knee_flexion_deg", 120), ("hip_knee_ankle_alignment_deg", 0),
                ("heel_height_cm", 0), ("trunk_forward_lean_deg", 0)],
    thresholds := {} }

/-! Generic lemmas about the check runner, the result skeleton, the
dispatcher and the metric-dict setters, shared by the claim theorems
below. -/

section EngineLemmas

variable {α : Type} [LinearOrderedField α]

lemma run_step_false (n : ℤ) (rs : List String) (s : String) :
    (let r := _bool_fail ((false, s) : Bool × String).1 (false, s).2
        ((n, rs) : ℤ × List String).2
     ((n, rs).1 + r.1, r.2)) = ((n, rs) : ℤ × List String) := by
  simp [_bool_fail]

lemma run_step_true (n : ℤ) (rs : List String) (s : String) :
    (let r := _bool_fail ((true, s) : Bool × String).1 (true, s).2
        ((n, rs) : ℤ × List String).2
     ((n, rs).1 + r.1, r.2)) = ((n + 1, rs ++ [s]) : ℤ × List String) := by
  simp [_bool_fail]

lemma run_checks_foldl (L : List (Bool × String)) (n : ℤ) (rs : List String) :
    L.foldl
        (fun acc c =>
          let r := _bool_fail c.1 c.2 acc.2
          (acc.1 + r.1, r.2))
        (n, rs)
      = (n + ((L.filter (fun c => c.1)).length : ℤ),
         rs ++ (L.filter (fun c => c.1)).map Prod.snd) := by
  induction L generalizing n rs with
  | nil => simp
  | cons hd tl ih =>
      obtain ⟨b, s⟩ := hd
      cases b with
      | false =>
          rw [List.foldl_cons, run_step_false, ih]
          simp [List.filter_cons]
      | true =>
          rw [List.foldl_cons, run_step_true, ih]
          simp only [List.filter_cons, List.length_cons, List.map_cons, if_pos,
            show ((true, s) : Bool × String).1 = true from rfl]
          refine Prod.ext ?_ ?_
          · simp only []
            push_cast
            ring
          · simp

lemma run_checks_eq (L : List (Bool × String)) :
    run_checks L = (((L.filter (fun c => c.1)).length : ℤ),
      (L.filter (fun c => c.1)).map Prod.snd) := by
  rw [run_checks, run_checks_foldl]
  simp

lemma run_checks_fst_eq_zero_iff (L : List (Bool × String)) :
    (run_checks L).1 = 0 ↔ (run_checks L).2 = [] := by
  rw [run_checks_eq]
  simp [List.length_eq_zero]

lemma mem_run_checks_snd {L : List (Bool × String)} {s : String} :
    s ∈ (run_checks L).2 ↔ (true, s) ∈ L := by
  rw [run_checks_eq]
  simp only [List.mem_map, List.mem_filter]
  constructor
  · rintro ⟨⟨b, t⟩, ⟨hmem, hb⟩, rfl⟩
    simp only at hb
    subst hb
    exact hmem
  · intro h
    exact ⟨(true, s), ⟨h, rfl⟩, rfl⟩

lemma score_from_flags_of_zero {c : ℤ} (hc : 1 ≤ c) : _score_from_flags c 0 = 5 := by
  simp only [_score_from_flags, sub_zero]
  rw [max_eq_right (by omega : (0:ℤ) ≤ c), max_eq_right hc,
    div_self (by exact_mod_cast (by omega : c ≠ 0))]
  simp

lemma build_result_ok {label pose : String} {req : List String} {checks : ℤ}
    {L : List (Bool × String)} {d : String} {m : MetricSet α} {th : Thresholds α}
    {r : PoseResult α}
    (h : build_result label pose req checks L d m th = Except.ok r) :
    r.pose = pose ∧ r.score = _score_from_flags checks (run_checks L).1 ∧
      r.pass_fail = decide ((run_checks L).1 = 0) ∧
      r.reasons = (if (run_checks L).2 = [] then [d] else (run_checks L).2) ∧
      r.thresholds = th := by
  simp only [build_result] at h
  split at h
  · rw [Except.ok.injEq] at h
    subst h
    exact ⟨rfl, rfl, rfl, rfl, rfl⟩
  · exact absurd h (by simp)

lemma build_result_missing {label pose : String} {req : List String} {checks : ℤ}
    {L : List (Bool × String)} {d : String} {m : MetricSet α} {th : Thresholds α}
    (h : ∃ k ∈ req, m.vals k = none) :
    build_result label pose req checks L d m th
      = Except.error (PoseError.missingMetrics label
          (req.filter (fun k => (m.vals k).isNone))) := by
  obtain ⟨k, hk, hnone⟩ := h
  have hmem : k ∈ req.filter (fun k => (m.vals k).isNone) :=
    List.mem_filter.2 ⟨hk, by simp [hnone]⟩
  simp only [build_result]
  rw [if_neg (List.ne_nil_of_mem hmem)]

lemma lookup_eq_none_of_forall {β : Type} (key : String) (l : List (String × β))
    (h : ∀ p ∈ l, ¬ key = p.1) : List.lookup key l = none := by
  induction l with
  | nil => rfl
  | cons hd tl ih =>
      obtain ⟨a, b⟩ := hd
      have hne : (key == a) = false :=
        beq_eq_false_iff_ne.2 (h (a, b) (List.mem_cons_self _ _))
      simp only [List.lookup, hne]
      exact ih (fun p hp => h p (List.mem_cons_of_mem _ hp))

lemma evaluate_pose_unfold (key : String) (m : MetricSet α) (th : Option (Thresholds α)) :
    evaluate_pose key m th =
      if key = "partial_squat" then validate_partial_squat m (th.getD {})
      else if key = "heel_raises" then validate_heel_raises m (th.getD {})
      else if key = "single_leg_stance" then validate_single_leg_stance m (th.getD {})
      else if key = "tandem_stance" then validate_tandem_stance m (th.getD {})
      else if key = "functional_reach" then validate_functional_reach m (th.getD {})
      else if key = "tree_pose" then validate_tree_pose m (th.getD {})
      else if key = "tree_pose_left" then validate_tree_pose_left m (th.getD {})
      else if key = "tree_pose_right" then validate_tree_pose_right m (th.getD {})
      else Except.error (PoseError.unknownPose key (List.map Prod.fst (POSE_DISPATCH α))) := by
  by_cases h1 : key = "partial_squat"
  · subst h1; rfl
  rw [if_neg h1]
  by_cases h2 : key = "heel_raises"
  · subst h2; rfl
  rw [if_neg h2]
  by_cases h3 : key = "single_leg_stance"
  · subst h3; rfl
  rw [if_neg h3]
  by_cases h4 : key = "tandem_stance"
  · subst h4; rfl
  rw [if_neg h4]
  by_cases h5 : key = "functional_reach"
  · subst h5; rfl
  rw [if_neg h5]
  by_cases h6 : key = "tree_pose"
  · subst h6; rfl
  rw [if_neg h6]
  by_cases h7 : key = "tree_pose_left"
  · subst h7; rfl
  rw [if_neg h7]
  by_cases h8 : key = "tree_pose_right"
  · subst h8; rfl
  rw [if_neg h8]
  have hnone : List.lookup key (POSE_DISPATCH α) = none := by
    refine lookup_eq_none_of_forall key _ ?_
    intro p hp
    simp only [POSE_DISPATCH, List.mem_cons, List.not_mem_nil, or_false] at hp
    rcases hp with rfl | rfl | rfl | rfl | rfl | rfl | rfl | rfl
    · exact h1
    · exact h2
    · exact h3
    · exact h4
    · exact h5
    · exact h6
    · exact h7
    · exact h8
  unfold evaluate_pose
  rw [hnone]

lemma evaluator_pass_score {label pose : String} {req : List String} {checks : ℤ}
    {L : List (Bool × String)} {d : String} {m : MetricSet α} {th : Thresholds α}
    {r : PoseResult α} (hc : 1 ≤ checks)
    (h : build_result label pose req checks L d m th = Except.ok r) :
    (r.pass_fail = true ↔ (run_checks L).1 = 0) ∧ (r.pass_fail = true → r.score = 5) := by
  obtain ⟨-, hscore, hpass, -, -⟩ := build_result_ok h
  constructor
  · rw [hpass]
    simp
  · intro hp
    rw [hpass] at hp
    have h0 : (run_checks L).1 = 0 := of_decide_eq_true hp
    rw [hscore, h0]
    exact score_from_flags_of_zero hc

lemma evaluator_reasons {label pose : String} {req : List String} {checks : ℤ}
    {L : List (Bool × String)} {d : String} {m : MetricSet α} {th : Thresholds α}
    {r : PoseResult α}
    (h : build_result label pose req checks L d m th = Except.ok r) :
    r.reasons ≠ [] ∧ (r.pass_fail = true → r.reasons = [d]) := by
  obtain ⟨-, -, hpass, hreasons, -⟩ := build_result_ok h
  constructor
  · rw [hreasons]
    split
    · simp
    · assumption
  · intro hp
    rw [hpass] at hp
    have h0 : (run_checks L).1 = 0 := of_decide_eq_true hp
    rw [hreasons, if_pos ((run_checks_fst_eq_zero_iff L).1 h0)]

end EngineLemmas

section SetterLemmas

variable {α : Type}

lemma vals_setVal_self (m : MetricSet α) (k : String) (v : α) :
    (m.setVal k v).vals k = some v := by
  simp [MetricSet.setVal]

lemma vals_setVal_ne (m : MetricSet α) {k q : String} (v : α) (h : ¬ q = k) :
    (m.setVal k v).vals q = m.vals q := by
  simp [MetricSet.setVal, h]

lemma vals_setFlag (m : MetricSet α) (k : String) (b : Bool) (q : String) :
    (m.setFlag k b).vals q = m.vals q := rfl

lemma vals_setStr (m : MetricSet α) (k s : String) (q : String) :
    (m.setStr k s).vals q = m.vals q := rfl

end SetterLemmas

lemma common_metrics_ankle_roll (landmarks : List Landmark) :
    (compute_pose_metrics_common landmarks).vals "ankle_roll_deg" = some 0 := by
  simp only [compute_pose_metrics_common]
  exact vals_setVal_self _ _ _

lemma sway_branch_vals_ankle_roll (landmarks : List Landmark) (m0 : MetricSet ℝ) :
    (sway_branch_metrics landmarks m0).vals "ankle_roll_deg"
      = m0.vals "ankle_roll_deg" := by
  simp only [sway_branch_metrics]
  rw [apply_ite (fun mm : MetricSet ℝ => mm.vals "ankle_roll_deg"),
    vals_setStr, vals_setStr, vals_setStr, vals_setStr, ite_self,
    vals_setVal_ne _ _ (by decide), vals_setVal_ne _ _ (by decide),
    vals_setVal_ne _ _ (by decide)]

lemma tandem_branch_vals_ankle_roll (landmarks : List Landmark) (m0 : MetricSet ℝ) :
    (tandem_branch_metrics landmarks m0).vals "ankle_roll_deg"
      = m0.vals "ankle_roll_deg" := by
  simp only [tandem_branch_metrics]
  rw [vals_setVal_ne _ _ (by decide), vals_setVal_ne _ _ (by decide), vals_setStr,
    vals_setStr, vals_setVal_ne _ _ (by decide), vals_setVal_ne _ _ (by decide),
    vals_setVal_ne _ _ (by decide), vals_setVal_ne _ _ (by decide)]

lemma functional_reach_branch_vals_ankle_roll (landmarks : List Landmark)
    (m0 : MetricSet ℝ) :
    (functional_reach_branch_metrics landmarks m0).vals "ankle_roll_deg"
      = m0.vals "ankle_roll_deg" := by
  simp only [functional_reach_branch_metrics]
  rw [vals_setVal_ne _ _ (by decide), vals_setVal_ne _ _ (by decide)]

lemma specific_metrics_ankle_roll (pose_type : String) (landmarks : List Landmark)
    (m0 : MetricSet ℝ) :
    (compute_pose_metrics_specific pose_type landmarks m0).vals "ankle_roll_deg"
      = m0.vals "ankle_roll_deg" := by
  simp only [compute_pose_metrics_specific]
  split_ifs with hp1 hp2 hp3 hp4 hp5
  · rfl
  · rfl
  · exact sway_branch_vals_ankle_roll landmarks m0
  · exact tandem_branch_vals_ankle_roll landmarks m0
  · exact functional_reach_branch_vals_ankle_roll landmarks m0
  · rfl

lemma compute_pose_metrics_fr_stepped (landmarks : List Landmark)
    (h : ¬ landmarks.length < 33) :
    (compute_pose_metrics "functional_reach" landmarks).vals "stepped_during_task"
      = some 0 := by
  simp only [compute_pose_metrics]
  rw [if_neg h]
  have hspec : compute_pose_metrics_specific "functional_reach" landmarks
      (compute_pose_metrics_common landmarks)
      = functional_reach_branch_metrics landmarks (compute_pose_metrics_common landmarks) :=
    rfl
  rw [hspec]
  simp only [functional_reach_branch_metrics]
  exact vals_setVal_self _ _ _

/-! Claim theorems and their witnesses. -/

/-- C1: for every non-negative integer pair `(checks, fails)` with
`fails ≤ checks`, the score produced by `_score_from_flags` equals the
bracket mapping (from the spec) of `ratio = (checks - fails) / max 1 checks`. -/
theorem score_from_flags_eq_ratio_bracket (total_checks : ℤ) (fails : ℤ)
    (h0 : 0 ≤ fails) (h1 : fails ≤ total_checks) :
    _score_from_flags total_checks fails =
      ratio_bracket_spec
        (((total_checks - fails : ℤ) : ℚ) / ((max 1 total_checks : ℤ) : ℚ)) := by
  simp only [_score_from_flags, ratio_bracket_spec]
  rw [max_eq_right (by omega : (0:ℤ) ≤ total_checks - fails)]

/-- Witness for C1 at `(checks, fails) = (5, 1)`. -/
theorem score_from_flags_eq_ratio_bracket_witness :
    (0:ℤ) ≤ 1 ∧ (1:ℤ) ≤ 5 ∧
      _score_from_flags 5 1 =
        ratio_bracket_spec (((5 - 1 : ℤ) : ℚ) / ((max 1 5 : ℤ) : ℚ)) :=
  ⟨by decide, by decide,
    score_from_flags_eq_ratio_bracket 5 1 (by decide) (by decide)⟩

/-- C2: for every pose evaluator (reached through the dispatcher) and
every metrics dict it accepts, the returned `PoseResult` has `pass_fail`
true if and only if the number of failed checks is 0, and whenever
`pass_fail` is true the score is 5. -/
theorem pass_iff_zero_fails_and_pass_implies_five (key : String) (m : MetricSet ℚ)
    (th : Thresholds ℚ) (r : PoseResult ℚ)
    (h : evaluate_pose key m (some th) = Except.ok r) :
    (r.pass_fail = true ↔ (run_checks (pose_check_list key m th)).1 = 0) ∧
      (r.pass_fail = true → r.score = 5) := by
  rw [evaluate_pose_unfold] at h
  simp only [Option.getD_some] at h
  split_ifs at h with h1 h2 h3 h4 h5 h6 h7 h8
  · subst h1
    simp only [validate_partial_squat] at h
    have hc : (1:ℤ) ≤ partial_squat_checks m := by
      unfold partial_squat_checks
      split <;> norm_num
    simpa [pose_check_list] using evaluator_pass_score hc h
  · subst h2
    simp only [validate_heel_raises] at h
    simpa [pose_check_list] using evaluator_pass_score (by norm_num) h
  · subst h3
    simp only [validate_single_leg_stance] at h
    simpa [pose_check_list] using evaluator_pass_score (by norm_num) h
  · subst h4
    simp only [validate_tandem_stance] at h
    simpa [pose_check_list] using evaluator_pass_score (by norm_num) h
  · subst h5
    simp only [validate_functional_reach] at h
    simpa [pose_check_list] using evaluator_pass_score (by norm_num) h
  · subst h6
    simp only [validate_tree_pose] at h
    simpa [pose_check_list] using evaluator_pass_score (by norm_num) h
  · subst h7
    simp only [validate_tree_pose_left] at h
    simpa [pose_check_list] using evaluator_pass_score (by norm_num) h
  · subst h8
    simp only [validate_tree_pose_right] at h
    simpa [pose_check_list] using evaluator_pass_score (by norm_num) h

/-- Witness for C2 on a concrete single-leg-stance evaluation. -/
theorem pass_iff_zero_fails_and_pass_implies_five_witness :
    (pass_witness_result.pass_fail = true ↔
        (run_checks (pose_check_list "single_leg_stance" pass_witness_metrics {})).1 = 0) ∧
      (pass_witness_result.pass_fail = true → pass_witness_result.score = 5) :=
  pass_iff_zero_fails_and_pass_implies_five "single_leg_stance" pass_witness_metrics {}
    pass_witness_result (by with_unfolding_all rfl)

/-- C3: for every exercise key of the dispatch table and every metrics
dict lacking at least one of the required keys of the exercise, evaluation
returns the missing-metrics error naming all the missing keys; no checks
run and no score is computed (the result of the evaluator is the error
alone). -/
theorem missing_metrics_fail_fast (key : String) (m : MetricSet ℚ)
    (th : Option (Thresholds ℚ))
    (hkey : key ∈ List.map Prod.fst (POSE_DISPATCH ℚ))
    (hmiss : ∃ k ∈ pose_required_keys key, m.vals k = none) :
    evaluate_pose key m th =
      Except.error (PoseError.missingMetrics (pose_error_label key)
        ((pose_required_keys key).filter (fun k => (m.vals k).isNone))) := by
  have hkey8 : key = "partial_squat" ∨ key = "heel_raises" ∨ key = "single_leg_stance" ∨
      key = "tandem_stance" ∨ key = "functional_reach" ∨ key = "tree_pose" ∨
      key = "tree_pose_left" ∨ key = "tree_pose_right" := by
    simpa [POSE_DISPATCH] using hkey
  rw [evaluate_pose_unfold]
  rcases hkey8 with rfl | rfl | rfl | rfl | rfl | rfl | rfl | rfl
  · rw [if_pos rfl,
      show pose_required_keys "partial_squat" = partial_squat_req from rfl,
      show pose_error_label "partial_squat" = "Partial Squat" from rfl]
    rw [show pose_required_keys "partial_squat" = partial_squat_req from rfl] at hmiss
    exact build_result_missing hmiss
  · rw [if_neg (by decide), if_pos rfl,
      show pose_required_keys "heel_raises" = heel_raises_req from rfl,
      show pose_error_label "heel_raises" = "Heel Raises" from rfl]
    rw [show pose_required_keys "heel_raises" = heel_raises_req from rfl] at hmiss
    exact build_result_missing hmiss
  · rw [if_neg (by decide), if_neg (by decide), if_pos rfl,
      show pose_required_keys "single_leg_stance" = single_leg_stance_req from rfl,
      show pose_error_label "single_leg_stance" = "SLS" from rfl]
    rw [show pose_required_keys "single_leg_stance" = single_leg_stance_req from rfl] at hmiss
    exact build_result_missing hmiss
  · rw [if_neg (by decide), if_neg (by decide), if_neg (by decide), if_pos rfl,
      show pose_required_keys "tandem_stance" = tandem_stance_req from rfl,
      show pose_error_label "tandem_stance" = "Tandem Stance" from rfl]
    rw [show pose_required_keys "tandem_stance" = tandem_stance_req from rfl] at hmiss
    exact build_result_missing hmiss
  · rw [if_neg (by decide), if_neg (by decide), if_neg (by decide), if_neg (by decide),
      if_pos rfl,
      show pose_required_keys "functional_reach" = functional_reach_req from rfl,
      show pose_error_label "functional_reach" = "Functional Reach" from rfl]
    rw [show pose_required_keys "functional_reach" = functional_reach_req from rfl] at hmiss
    exact build_result_missing hmiss
  · rw [if_neg (by decide), if_neg (by decide), if_neg (by decide), if_neg (by decide),
      if_neg (by decide), if_pos rfl,
      show pose_required_keys "tree_pose" = tree_pose_req from rfl,
      show pose_error_label "tree_pose" = "Tree Pose" from rfl]
    rw [show pose_required_keys "tree_pose" = tree_pose_req from rfl] at hmiss
    exact build_result_missing hmiss
  · rw [if_neg (by decide), if_neg (by decide), if_neg (by decide), if_neg (by decide),
      if_neg (by decide), if_neg (by decide), if_pos rfl,
      show pose_required_keys "tree_pose_left" = tree_pose_req from rfl,
      show pose_error_label "tree_pose_left" = "Tree Pose (Left)" from rfl]
    rw [show pose_required_keys "tree_pose_left" = tree_pose_req from rfl] at hmiss
    exact build_result_missing hmiss
  · rw [if_neg (by decide), if_neg (by decide), if_neg (by decide), if_neg (by decide),
      if_neg (by decide), if_neg (by decide), if_neg (by decide), if_pos rfl,
      show pose_required_keys "tree_pose_right" = tree_pose_req from rfl,
      show pose_error_label "tree_pose_right" = "Tree Pose (Right)" from rfl]
    rw [show pose_required_keys "tree_pose_right" = tree_pose_req from rfl] at hmiss
    exact build_result_missing hmiss

/-- Witness for C3: an empty metrics dict fails fast for
"functional_reach". -/
theorem missing_metrics_fail_fast_witness :
    ("functional_reach" ∈ List.map Prod.fst (POSE_DISPATCH ℚ) ∧
        ∃ k ∈ pose_required_keys "functional_reach",
          (MetricSet.empty ℚ).vals k = none) ∧
      evaluate_pose "functional_reach" (MetricSet.empty ℚ) none =
        Except.error (PoseError.missingMetrics (pose_error_label "functional_reach")
          ((pose_required_keys "functional_reach").filter
            (fun k => ((MetricSet.empty ℚ).vals k).isNone))) :=
  ⟨⟨by decide, ⟨"reach_distance_ratio", by decide, rfl⟩⟩,
    missing_metrics_fail_fast "functional_reach" (MetricSet.empty ℚ) none (by decide)
      ⟨"reach_distance_ratio", by decide, rfl⟩⟩

/-- C4: when a partial-squat metrics dict has `is_facing_sideways` true,
the knee-alignment check is excluded from the total check count (4
instead of 5) and from the check list (whose outcome is therefore
independent of the `hip_knee_ankle_alignment_deg` value), and the
returned reasons never contain the "Knees in line" cue. -/
theorem sideways_squat_skips_knee_alignment (m : MetricSet ℚ) (th : Thresholds ℚ)
    (a : ℚ) (hreq : ∀ k ∈ partial_squat_req, (m.vals k).isSome)
    (hside : (m.flags "is_facing_sideways").getD false = true) :
    partial_squat_checks m = 4 ∧
      (partial_squat_checkList m th).length = 4 ∧
      partial_squat_checkList (m.setVal "hip_knee_ankle_alignment_deg" a) th
        = partial_squat_checkList m th ∧
      ∀ r, validate_partial_squat m th = Except.ok r → "Knees in line" ∉ r.reasons := by
  refine ⟨?_, ?_, ?_, ?_⟩
  · simp [partial_squat_checks, hside]
  · simp [partial_squat_checkList, hside]
  · simp [partial_squat_checkList, MetricSet.setVal, hside]
  · intro r hr
    simp only [validate_partial_squat] at hr
    obtain ⟨-, -, -, hreasons, -⟩ := build_result_ok hr
    rw [hreasons]
    split
    · simp
    · intro hmem
      rw [mem_run_checks_snd] at hmem
      simp [partial_squat_checkList, hside] at hmem

/-- Witness for C4 on `sideways_witness_metrics` with the alignment value
replaced by 999. -/
theorem sideways_squat_skips_knee_alignment_witness :
    ((∀ k ∈ partial_squat_req, (sideways_witness_metrics.vals k).isSome) ∧
        (sideways_witness_metrics.flags "is_facing_sideways").getD false = true) ∧
      (partial_squat_checks sideways_witness_metrics = 4 ∧
        (partial_squat_checkList sideways_witness_metrics {}).length = 4 ∧
        partial_squat_checkList
            (sideways_witness_metrics.setVal "hip_knee_ankle_alignment_deg" 999) {}
          = partial_squat_checkList sideways_witness_metrics {} ∧
        ∀ r, validate_partial_squat sideways_witness_metrics ({} : Thresholds ℚ)
            = Except.ok r → "Knees in line" ∉ r.reasons) :=
  ⟨⟨by decide, rfl⟩,
    sideways_squat_skips_knee_alignment sideways_witness_metrics {} 999 (by decide) rfl⟩

/-- C5: evaluating heel raises on
`{heel_height_cm: 0.2, symmetry_diff_pct: 9, ankle_roll_deg: 4,
trunk_forward_lean_deg: 8}` under the default thresholds yields exactly
one failed check out of 4 (the heel-height check, as the single
"Raise higher" cue shows), score 3, and `pass_fail` false. -/
theorem heel_raises_one_fail_scenario :
    validate_heel_raises heel_scenario_metrics ({} : Thresholds ℚ) =
        Except.ok
          { pose := "Heel Raises", score := 3, pass_fail := false,
            reasons := ["Raise higher"],
            metrics := [("heel_height_cm", 0.2), ("symmetry_diff_pct", 9),
                        ("ankle_roll_deg", 4), ("trunk_forward_lean_deg", 8)],
            thresholds := {} } ∧
      (run_checks (heel_raises_checkList heel_scenario_metrics {})).1 = 1 := by
  constructor
  · with_unfolding_all rfl
  · with_unfolding_all rfl

/-- C6: for every pose evaluator (reached through the dispatcher) and
every metrics dict it accepts, the reasons of the returned `PoseResult`
are never empty; when all checks pass they are exactly the one
encouraging default message of that evaluator. -/
theorem reasons_never_empty (key : String) (m : MetricSet ℚ) (th : Thresholds ℚ)
    (r : PoseResult ℚ) (h : evaluate_pose key m (some th) = Except.ok r) :
    r.reasons ≠ [] ∧ (r.pass_fail = true → r.reasons = [pose_default_message key]) := by
  rw [evaluate_pose_unfold] at h
  simp only [Option.getD_some] at h
  split_ifs at h with h1 h2 h3 h4 h5 h6 h7 h8
  · subst h1
    simp only [validate_partial_squat] at h
    simpa [pose_default_message] using evaluator_reasons h
  · subst h2
    simp only [validate_heel_raises] at h
    simpa [pose_default_message] using evaluator_reasons h
  · subst h3
    simp only [validate_single_leg_stance] at h
    simpa [pose_default_message] using evaluator_reasons h
  · subst h4
    simp only [validate_tandem_stance] at h
    simpa [pose_default_message] using evaluator_reasons h
  · subst h5
    simp only [validate_functional_reach] at h
    simpa [pose_default_message] using evaluator_reasons h
  · subst h6
    simp only [validate_tree_pose] at h
    simpa [pose_default_message] using evaluator_reasons h
  · subst h7
    simp only [validate_tree_pose_left] at h
    simpa [pose_default_message] using evaluator_reasons h
  · subst h8
    simp only [validate_tree_pose_right] at h
    simpa [pose_default_message] using evaluator_reasons h

/-- Witness for C6 on a concrete tandem-stance evaluation. -/
theorem reasons_never_empty_witness :
    reasons_witness_result.reasons ≠ [] ∧
      (reasons_witness_result.pass_fail = true →
        reasons_witness_result.reasons = [pose_default_message "tandem_stance"]) :=
  reasons_never_empty "tandem_stance" reasons_witness_metrics {} reasons_witness_result
    (by with_unfolding_all rfl)

/-- C7: dispatching any key outside the dispatch table yields the
unknown-pose error listing the valid keys, and the dispatch table
contains exactly the eight exercise keys. -/
theorem unknown_pose_error_lists_valid_keys (key : String)
    (hkey : key ∉ List.map Prod.fst (POSE_DISPATCH ℚ)) :
    (∀ (m : MetricSet ℚ) (th : Option (Thresholds ℚ)),
        evaluate_pose key m th =
          Except.error (PoseError.unknownPose key
            (List.map Prod.fst (POSE_DISPATCH ℚ)))) ∧
      List.map Prod.fst (POSE_DISPATCH ℚ) =
        ["partial_squat", "heel_raises", "single_leg_stance", "tandem_stance",
         "functional_reach", "tree_pose", "tree_pose_left", "tree_pose_right"] ∧
      (List.map Prod.fst (POSE_DISPATCH ℚ)).length = 8 := by
  simp only [POSE_DISPATCH, List.map_cons, List.map_nil, List.mem_cons,
    List.not_mem_nil, or_false, not_or] at hkey
  obtain ⟨k1, k2, k3, k4, k5, k6, k7, k8⟩ := hkey
  refine ⟨?_, rfl, rfl⟩
  intro m th
  rw [evaluate_pose_unfold, if_neg k1, if_neg k2, if_neg k3, if_neg k4, if_neg k5,
    if_neg k6, if_neg k7, if_neg k8]

/-- Witness for C7 at the key "cartwheel". -/
theorem unknown_pose_error_lists_valid_keys_witness :
    "cartwheel" ∉ List.map Prod.fst (POSE_DISPATCH ℚ) ∧
      ((∀ (m : MetricSet ℚ) (th : Option (Thresholds ℚ)),
          evaluate_pose "cartwheel" m th =
            Except.error (PoseError.unknownPose "cartwheel"
              (List.map Prod.fst (POSE_DISPATCH ℚ)))) ∧
        List.map Prod.fst (POSE_DISPATCH ℚ) =
          ["partial_squat", "heel_raises", "single_leg_stance", "tandem_stance",
           "functional_reach", "tree_pose", "tree_pose_left", "tree_pose_right"] ∧
        (List.map Prod.fst (POSE_DISPATCH ℚ)).length = 8) :=
  ⟨by decide, unknown_pose_error_lists_valid_keys "cartwheel" (by decide)⟩

/-- C8: `calculate_angle` is total with values in [0, 180] degrees, and
returns exactly 0 whenever either non-center point coincides with the
center point `p1`. -/
theorem calculate_angle_bounds_and_degenerate (p1 p2 p3 : Landmark) :
    (0 ≤ calculate_angle p1 p2 p3 ∧ calculate_angle p1 p2 p3 ≤ 180) ∧
      ((p2 = p1 ∨ p3 = p1) → calculate_angle p1 p2 p3 = 0) := by
  constructor
  · simp only [calculate_angle]
    split
    · norm_num
    · constructor
      · exact div_nonneg (mul_nonneg (Real.arccos_nonneg _) (by norm_num)) Real.pi_pos.le
      · rw [div_le_iff₀ Real.pi_pos]
        have harc := Real.arccos_le_pi (max (-1) (min 1
          (((p2.x - p1.x) * (p3.x - p1.x) + (p2.y - p1.y) * (p3.y - p1.y)) /
            (Real.sqrt ((p2.x - p1.x) ^ 2 + (p2.y - p1.y) ^ 2) *
              Real.sqrt ((p3.x - p1.x) ^ 2 + (p3.y - p1.y) ^ 2)))))
        linarith
  · intro hdeg
    simp only [calculate_angle]
    rcases hdeg with rfl | rfl
    · simp
    · simp

/-- Witness for C8: the degenerate case at coincident points evaluates
to 0. -/
theorem calculate_angle_bounds_and_degenerate_witness :
    calculate_angle { x := 0, y := 0 } { x := 0, y := 0 } { x := 1, y := 0 } = 0 :=
  (calculate_angle_bounds_and_degenerate { x := 0, y := 0 } { x := 0, y := 0 }
    { x := 1, y := 0 }).2 (Or.inl rfl)

/-- C9: under the default thresholds the first squat depth check fails
exactly when knee flexion is strictly above 140 and the second exactly
when it is strictly below 100, so neither fails if and only if the
flexion lies in the closed interval from 100 to 140. -/
theorem squat_depth_window (m : MetricSet ℚ) (x : ℚ) (r : PoseResult ℚ)
    (hx : m.vals "knee_flexion_deg" = some x)
    (h : validate_partial_squat m ({} : Thresholds ℚ) = Except.ok r) :
    ("Go deeper" ∈ r.reasons ↔ 140 < x) ∧
      ("Don\x27t go too deep" ∈ r.reasons ↔ x < 100) ∧
      (("Go deeper" ∉ r.reasons ∧ "Don\x27t go too deep" ∉ r.reasons) ↔
        (100 ≤ x ∧ x ≤ 140)) := by
  simp only [validate_partial_squat] at h
  obtain ⟨-, -, -, hreasons, -⟩ := build_result_ok h
  have hlift : ∀ s : String, ¬ s = "Nice control and alignment." →
      (s ∈ r.reasons ↔ s ∈ (run_checks (partial_squat_checkList m {})).2) := by
    intro s hs
    rw [hreasons]
    split
    · rename_i hempty
      simp [hempty, hs]
    · exact Iff.rfl
  have hmemGo : "Go deeper" ∈ (run_checks (partial_squat_checkList m {})).2 ↔ 140 < x := by
    rw [mem_run_checks_snd]
    cases hside : (m.flags "is_facing_sideways").getD false with
    | false =>
        constructor
        · intro hmem
          simpa [partial_squat_checkList, hside, hx] using hmem
        · intro hgt
          simp [partial_squat_checkList, hside, hx, hgt]
    | true =>
        constructor
        · intro hmem
          simpa [partial_squat_checkList, hside, hx] using hmem
        · intro hgt
          simp [partial_squat_checkList, hside, hx, hgt]
  have hmemDeep : "Don\x27t go too deep" ∈ (run_checks (partial_squat_checkList m {})).2
      ↔ x < 100 := by
    rw [mem_run_checks_snd]
    cases hside : (m.flags "is_facing_sideways").getD false with
    | false =>
        constructor
        · intro hmem
          simpa [partial_squat_checkList, hside, hx] using hmem
        · intro hlt
          simp [partial_squat_checkList, hside, hx, hlt]
    | true =>
        constructor
        · intro hmem
          simpa [partial_squat_checkList, hside, hx] using hmem
        · intro hlt
          simp [partial_squat_checkList, hside, hx, hlt]
  have h1 : ("Go deeper" ∈ r.reasons ↔ 140 < x) :=
    (hlift "Go deeper" (by decide)).trans hmemGo
  have h2 : ("Don\x27t go too deep" ∈ r.reasons ↔ x < 100) :=
    (hlift "Don\x27t go too deep" (by decide)).trans hmemDeep
  refine ⟨h1, h2, ?_⟩
  simp only [h1, h2, not_lt]
  exact and_comm

/-- Witness for C9 at knee flexion 120. -/
theorem squat_depth_window_witness :
    ("Go deeper" ∈ window_witness_result.reasons ↔ (140:ℚ) < 120) ∧
      ("Don\x27t go too deep" ∈ window_witness_result.reasons ↔ (120:ℚ) < 100) ∧
      (("Go deeper" ∉ window_witness_result.reasons ∧
          "Don\x27t go too deep" ∉ window_witness_result.reasons) ↔
        ((100:ℚ) ≤ 120 ∧ (120:ℚ) ≤ 140)) :=
  squat_depth_window window_witness_metrics 120 window_witness_result rfl
    (by with_unfolding_all rfl)

/-- C10: on every frame of at least 33 landmarks the extractor emits the
placeholder `ankle_roll_deg = 0` (for every pose type) and, for
functional reach, `stepped_during_task = 0`; consequently the heel-raises
ankle-roll check and the functional-reach stepping check can never fail
on extractor-produced metrics — their cues never appear in the
reasons. -/
theorem ankle_roll_and_stepped_placeholders (pose_type : String)
    (landmarks : List Landmark) (h : 33 ≤ landmarks.length) :
    (compute_pose_metrics pose_type landmarks).vals "ankle_roll_deg" = some 0 ∧
      (compute_pose_metrics "functional_reach" landmarks).vals "stepped_during_task"
        = some 0 ∧
      (∀ r, validate_heel_raises (compute_pose_metrics pose_type landmarks)
          ({} : Thresholds ℝ) = Except.ok r → "Neutral ankles" ∉ r.reasons) ∧
      (∀ r, validate_functional_reach (compute_pose_metrics "functional_reach" landmarks)
          ({} : Thresholds ℝ) = Except.ok r →
        "Keep feet planted: stepping detected." ∉ r.reasons) := by
  have hlen : ¬ landmarks.length < 33 := by omega
  have hankle : (compute_pose_metrics pose_type landmarks).vals "ankle_roll_deg"
      = some 0 := by
    simp only [compute_pose_metrics]
    rw [if_neg hlen, specific_metrics_ankle_roll, common_metrics_ankle_roll]
  have hstep := compute_pose_metrics_fr_stepped landmarks hlen
  refine ⟨hankle, hstep, ?_, ?_⟩
  · intro r hr
    simp only [validate_heel_raises] at hr
    obtain ⟨-, -, -, hreasons, -⟩ := build_result_ok hr
    rw [hreasons]
    split
    · simp
    · intro hmem
      rw [mem_run_checks_snd] at hmem
      simp [heel_raises_checkList, hankle] at hmem
      norm_num at hmem
  · intro r hr
    simp only [validate_functional_reach] at hr
    obtain ⟨-, -, -, hreasons, -⟩ := build_result_ok hr
    rw [hreasons]
    split
    · simp
    · intro hmem
      rw [mem_run_checks_snd] at hmem
      simp [functional_reach_checkList, hstep] at hmem
      norm_num at hmem

/-- Witness for C10 on a 33-point frame of zeros. -/
theorem ankle_roll_and_stepped_placeholders_witness :
    33 ≤ (List.replicate 33 ({ x := 0, y := 0 } : Landmark)).length ∧
      ((compute_pose_metrics "heel_raises"
            (List.replicate 33 ({ x := 0, y := 0 } : Landmark))).vals "ankle_roll_deg"
          = some 0 ∧
        (compute_pose_metrics "functional_reach"
            (List.replicate 33 ({ x := 0, y := 0 } : Landmark))).vals "stepped_during_task"
          = some 0 ∧
        (∀ r, validate_heel_raises (compute_pose_metrics "heel_raises"
              (List.replicate 33 ({ x := 0, y := 0 } : Landmark)))
            ({} : Thresholds ℝ) = Except.ok r → "Neutral ankles" ∉ r.reasons) ∧
        (∀ r, validate_functional_reach (compute_pose_metrics "functional_reach"
              (List.replicate 33 ({ x := 0, y := 0 } : Landmark)))
            ({} : Thresholds ℝ) = Except.ok r →
          "Keep feet planted: stepping detected." ∉ r.reasons)) :=
  ⟨by simp, ankle_roll_and_stepped_placeholders "heel_raises"
    (List.replicate 33 ({ x := 0, y := 0 } : Landmark)) (by simp)⟩

end PTPal
